import Mathlib

/-!
Shallow embedding of the frame composition and normalization engine of the
korangar repository (`src/korangar/src/loaders/animation/mod.rs`, together
with the render selector duplicated in `src/korangar/src/world/animation/mod.rs`
and the sprite texture layout of `src/korangar/src/loaders/sprite/mod.rs`).

Modelling conventions:
* Rust `i32` values are modelled as `ℤ`; `i32` division (`/ 2`) truncates
  toward zero and is therefore `Int.tdiv`.
* Rust `usize` values are modelled as `ℕ`; `usize::MAX` is the explicit
  64-bit sentinel constant.
* Rust `f32` arithmetic is modelled by exact rational arithmetic (`ℚ`).
  None of the verified properties depends on floating-point rounding; the
  only floating-point computation whose value feeds a verified property —
  the `(time as f32 / factor) as u32` branch of the render selector's
  frame-time computation, taken when no explicit duration is set — is
  abstracted as an explicit oracle argument (its `f32` division and
  saturating cast always yield a value and cannot panic). The integer
  branch taken when a duration is set uses `u32` arithmetic and is
  modelled exactly, including its division-by-zero panic on a zero
  duration.
* Rotation angles are stored as the rational coefficient of π: the source
  computes `value / 360.0 * 2.0 * PI`; the embedding stores
  `value / 360 * 2`, the true angle in radians being that number times π.
* A Rust panic (failed slice index, `%` by zero, `Option::unwrap` /
  `Result::unwrap` failure) is modelled by `Option.none` (or by the
  explicit `LoadResult.panicked` outcome for the loader entry points).
-/

/-- Two dimensional vector, mirroring `cgmath::Vector2` as used by the code. -/
structure Vector2 (α : Type) where
  x : α
  y : α
deriving DecidableEq, Repr

instance {α : Type} [Add α] : Add (Vector2 α) :=
  ⟨fun a b => ⟨a.x + b.x, a.y + b.y⟩⟩

instance {α : Type} [Sub α] : Sub (Vector2 α) :=
  ⟨fun a b => ⟨a.x - b.x, a.y - b.y⟩⟩

instance {α : Type} [Neg α] : Neg (Vector2 α) :=
  ⟨fun a => ⟨-a.x, -a.y⟩⟩

/-- The integer vector `(1, 1)` subtracted throughout the geometry code. -/
def v11 : Vector2 ℤ := ⟨1, 1⟩

/-- Componentwise truncated division by two of an integer vector: Rust's
`Vector2<i32> / 2` divides each component with `i32` division, which rounds
toward zero. -/
def Vector2.tdiv2 (v : Vector2 ℤ) : Vector2 ℤ :=
  ⟨v.x.tdiv 2, v.y.tdiv 2⟩

/-- RGBA color with normalized channels, mirroring `Color` (`f32` channels
modelled as `ℚ`). -/
structure Color where
  red : ℚ
  green : ℚ
  blue : ℚ
  alpha : ℚ
deriving DecidableEq, Repr

/-- `Color::default()`: fully transparent black. -/
def Color.default : Color := ⟨0, 0, 0, 0⟩

/-- `usize::MAX` on a 64-bit target, the sentinel used for absent indices. -/
def USIZE_MAX : ℕ := 2 ^ 64 - 1

/-- Rust `as usize` cast of an `i32` value (two's-complement wrap into the
64-bit unsigned range). -/
def intAsUsize (n : ℤ) : ℕ := (n % (2 ^ 64 : ℤ)).toNat

/-- Rust `as i32` cast of a `u32` value. -/
def u32AsI32 (n : ℕ) : ℤ :=
  let m : ℤ := (n : ℤ) % (2 ^ 32 : ℤ)
  if m < 2 ^ 31 then m else m - 2 ^ 32

/-- Rust `f32::floor() as u32` cast (float-to-int `as` casts saturate). -/
def floorAsU32 (q : ℚ) : ℕ :=
  let z := Rat.floor q
  if z < 0 then 0 else min z.toNat (2 ^ 32 - 1)

/-- One positioned, colored, rotated sprite-image reference
(`FramePart` in `loaders/animation/mod.rs`). -/
structure FramePart where
  animation_index : ℕ
  sprite_number : ℕ
  offset : Vector2 ℤ
  size : Vector2 ℤ
  mirror : Bool
  angle : ℚ
  color : Color
  texture_top_left : Vector2 ℚ
  texture_bottom_left : Vector2 ℚ
  texture_top_right : Vector2 ℚ
  texture_bottom_right : Vector2 ℚ
deriving DecidableEq, Repr

/-- `FramePart::default()` from the source: sentinel max-integer indices,
zero geometry, transparent color, zero texture coordinates. -/
def FramePart.default : FramePart where
  animation_index := USIZE_MAX
  sprite_number := USIZE_MAX
  offset := ⟨0, 0⟩
  size := ⟨0, 0⟩
  mirror := false
  angle := 0
  color := Color.default
  texture_top_left := ⟨0, 0⟩
  texture_bottom_left := ⟨0, 0⟩
  texture_top_right := ⟨0, 0⟩
  texture_bottom_right := ⟨0, 0⟩

/-- A set of frame parts plus their bounding rectangle
(`Frame` in `loaders/animation/mod.rs`). -/
structure Frame where
  offset : Vector2 ℤ
  top_left : Vector2 ℤ
  size : Vector2 ℤ
  remove_offset : Vector2 ℤ
  frameparts : List FramePart
deriving DecidableEq, Repr

/-- The 1×1 placeholder frame with one sentinel part returned by
`Frame::merge_frame` on an empty input (lines 330–354 of the source; note
that the sentinel part's `size` is set to `(1, 1)` there, overriding the
zero size of `FramePart::default()`). -/
def Frame.emptyMergeFrame : Frame where
  offset := ⟨0, 0⟩
  top_left := ⟨0, 0⟩
  size := ⟨1, 1⟩
  remove_offset := ⟨0, 0⟩
  frameparts := [{ FramePart.default with
    size := ⟨1, 1⟩
    offset := ⟨0, 0⟩
    mirror := false
    angle := 0
    color := ⟨0, 0, 0, 0⟩ }]

/-- The first pass of `Frame::merge_frame` (lines 324–328): every input
frame's `top_left` corner is set to `offset - (size - (1,1)) / 2`. -/
def mergeInputs (frames : List Frame) : List Frame :=
  frames.map fun f => { f with top_left := f.offset - (f.size - v11).tdiv2 }

/-- `Frame::merge_frame`: sets each input frame's `top_left` from its
center-anchored `offset` and `size`, returns the placeholder on empty input,
and otherwise the bounding-box union with the concatenated part lists. -/
def Frame.merge_frame (frames : List Frame) : Frame :=
  let fs := mergeInputs frames
  if fs.isEmpty then Frame.emptyMergeFrame
  else
    let top_left_x := (fs.map fun f => f.top_left.x).min?.getD 0
    let top_left_y := (fs.map fun f => f.top_left.y).min?.getD 0
    let right := (fs.map fun f => f.top_left.x + f.size.x).max?.getD 0
    let bottom := (fs.map fun f => f.top_left.y + f.size.y).max?.getD 0
    let new_width := right - top_left_x
    let new_height := bottom - top_left_y
    { offset := ⟨top_left_x + (new_width - 1).tdiv 2, top_left_y + (new_height - 1).tdiv 2⟩
      top_left := ⟨0, 0⟩
      size := ⟨new_width, new_height⟩
      remove_offset := ⟨0, 0⟩
      frameparts := (fs.map fun f => f.frameparts).flatten }

/-- `convert_coordinate`: maps a pixel coordinate inside a frame rectangle to
the renderer's normalized space. -/
def convert_coordinate (coordinate : Vector2 ℤ) (size : Vector2 ℤ) : Vector2 ℚ :=
  ⟨((coordinate.x : ℚ) / (size.x : ℚ) - (1 / 2)) * 2,
   2 - (coordinate.y : ℚ) / (size.y : ℚ) * 2⟩

/-- The six accumulators of the normalization pass over the frames of one
action (lines 191–204 of the source), with the source's initial values
(`0` for the maxima, `i32::MAX` for the offset minima). -/
structure NormBounds where
  max_width : ℤ
  max_height : ℤ
  min_offset_x : ℤ
  min_offset_y : ℤ
  max_offset_x : ℤ
  max_offset_y : ℤ
deriving DecidableEq, Repr

/-- Single left-to-right pass computing the maxima and extrema of the frame
sizes and offsets of one action. -/
def normBounds (frames : List Frame) : NormBounds :=
  frames.foldl
    (fun acc f =>
      ⟨max acc.max_width f.size.x, max acc.max_height f.size.y,
       min acc.min_offset_x f.offset.x, min acc.min_offset_y f.offset.y,
       max acc.max_offset_x f.offset.x, max acc.max_offset_y f.offset.y⟩)
    ⟨0, 0, 2 ^ 31 - 1, 2 ^ 31 - 1, 0, 0⟩

/-- The `remove_offset` assigned to every frame of one action:
`(max_offset - min_offset) + 2` componentwise. -/
def normRemoveOffset (frames : List Frame) : Vector2 ℤ :=
  let b := normBounds frames
  ⟨b.max_offset_x - b.min_offset_x + 2, b.max_offset_y - b.min_offset_y + 2⟩

/-- The uniform inflated size assigned to every frame of one action:
the maximum width/height plus `(max_offset - min_offset) + 2`. -/
def normSize (frames : List Frame) : Vector2 ℤ :=
  let b := normBounds frames
  ⟨b.max_width + (b.max_offset_x - b.min_offset_x + 2),
   b.max_height + (b.max_offset_y - b.min_offset_y + 2)⟩

/-- The action normalizer (lines 191–237 of the source): gives every frame
of the action the same size, offset and `remove_offset`, shifts every frame
part by the same delta, and precomputes the normalized texture-quad corners.
The frame fields referenced while processing the parts are the already
updated ones, exactly as in the source's in-place mutation order. -/
def normalizeFrames (frames : List Frame) : List Frame :=
  let b := normBounds frames
  let dx := b.max_offset_x - b.min_offset_x + 2
  let dy := b.max_offset_y - b.min_offset_y + 2
  let mw := b.max_width + dx
  let mh := b.max_height + dy
  frames.map fun f =>
    let offset : Vector2 ℤ := ⟨b.min_offset_x + dx, b.min_offset_y + dy⟩
    let size : Vector2 ℤ := ⟨mw, mh⟩
    let remove_offset : Vector2 ℤ := ⟨dx, dy⟩
    let parts := f.frameparts.map fun p =>
      let p_offset := p.offset + remove_offset
      let new_vector := p.size - v11
      let old_origin := offset - (size - remove_offset - v11).tdiv2
      let new_origin := p_offset - (p.size - v11).tdiv2
      let top_left := new_origin - old_origin
      let bottom_left := top_left + ⟨0, new_vector.y⟩
      let top_right := top_left + ⟨new_vector.x, 0⟩
      let bottom_right := top_left + new_vector
      { p with
        offset := p_offset
        texture_top_left := convert_coordinate top_left size
        texture_bottom_left := convert_coordinate bottom_left size
        texture_top_right := convert_coordinate top_right size
        texture_bottom_right := convert_coordinate bottom_right size }
    { f with offset := offset, size := size, remove_offset := remove_offset, frameparts := parts }

/-- Entity kinds, mirroring `EntityType` as matched by the animation loader
(the source matches `Player`, `Monster`, `Npc` and a catch-all arm; `Warp`
stands for the remaining variants reaching the catch-all arm). -/
inductive EntityType where
  | Player
  | Monster
  | Npc
  | Warp
deriving DecidableEq, Repr

/-- A GPU texture, modelled by the only data the loader reads from it:
its pixel size (`get_size()` returning width and height). -/
structure Texture where
  width : ℕ
  height : ℕ
deriving DecidableEq, Repr

/-- A loaded sprite (`Sprite` in `loaders/sprite/mod.rs`): the number of
palette images and the texture list, which enumerates the palette-decoded
images first and the direct-color (rgba) images after them. -/
structure Sprite where
  palette_size : ℕ
  textures : List Texture
deriving DecidableEq, Repr

/-- Modelled from the spec: an attach-point marker of a motion (the external
`ragnarok_formats` definition is not under `src/`); the loader reads only its
`position`. -/
structure AttachPoint where
  position : Vector2 ℤ
deriving DecidableEq, Repr

/-- Modelled from the spec: one sprite clip of a motion (the external
`ragnarok_formats` definition is not under `src/`), holding exactly the
fields the loader reads: sprite image index (`-1` meaning skip), placement
position, optional packed tint color, optional uniform and non-uniform zoom,
optional rotation angle in hundredths of a degree, mirror field, and the
optional sprite-type discriminator (palette vs. direct-color image bank). -/
structure SpriteClip where
  sprite_number : ℤ
  position : Vector2 ℤ
  color : Option ℕ
  zoom : Option ℚ
  zoom2 : Option (Vector2 ℚ)
  angle : Option ℤ
  mirror_on : ℤ
  sprite_type : Option ℤ
deriving DecidableEq, Repr

/-- Modelled from the spec: one motion, an ordered sequence of sprite clips
with its redundant clip count and optional attach-point markers. -/
structure Motion where
  sprite_clip_count : ℕ
  sprite_clips : List SpriteClip
  attach_point_count : Option ℤ
  attach_points : List AttachPoint
deriving DecidableEq, Repr

/-- Modelled from the spec: one action, an ordered sequence of motions. -/
structure ActionData where
  motions : List Motion
deriving DecidableEq, Repr

/-- Modelled from the spec: the parsed action table of one sprite/action
pair (`Actions`), with one delay value per action direction-variant. -/
structure Actions where
  actions : List ActionData
  delays : List ℚ
deriving DecidableEq, Repr

/-- `AnimationPair`: the sprite and action table of one contributing body
part. -/
structure AnimationPair where
  sprites : Sprite
  actions : Actions
deriving DecidableEq, Repr

/-- `Animation`: the ordered frames of one action/direction variant. -/
structure Animation where
  frames : List Frame
deriving DecidableEq, Repr

/-- `AnimationData`: the fully composed animation table of one entity
composition. -/
structure AnimationData where
  animation_pair : List AnimationPair
  animations : List Animation
  delays : List ℚ
  entity_type : EntityType
deriving DecidableEq, Repr

/-- The attach point of pair 0's motion at the same action/motion index
(lines 118–121 of the source: `animation_pairs[0].actions.actions
[action_index].motions[motion_index].attach_points[0].position`); `none`
models the panic of any of those index accesses. -/
def parentAttachPosition (animation_pairs : List AnimationPair)
    (action_index motion_index : ℕ) : Option (Vector2 ℤ) :=
  (animation_pairs.get? 0).bind fun parent_animation_pair =>
    (parent_animation_pair.actions.actions.get? action_index).bind fun parent_action =>
      (parent_action.motions.get? motion_index).bind fun parent_motion =>
        (parent_motion.attach_points.get? 0).map fun a => a.position

/-- Placement-offset resolution for one sprite clip (lines 106–125 of the
source): the raw clip position, adjusted by
`parent_attach_point - this_attach_point` exactly when the entity is a
player, the motion's attach-point count is one, and this is the pair at
index 1. -/
def resolveClipOffset (animation_pairs : List AnimationPair) (entity_type : EntityType)
    (animation_index : ℕ) (action_index motion_index : ℕ) (motion : Motion)
    (sprite_clip : SpriteClip) : Option (Vector2 ℤ) :=
  let has_attach_point : Bool := match motion.attach_point_count with
    | some value => value == 1
    | none => false
  if entity_type == EntityType.Player && has_attach_point && animation_index == 1 then
    match parentAttachPosition animation_pairs action_index motion_index with
    | none => none
    | some parent_attach_point =>
      match (motion.attach_points.get? 0).map (fun a => a.position) with
      | none => none
      | some attach_point =>
        some (sprite_clip.position + (-attach_point + parent_attach_point))
  else
    some sprite_clip.position

/-- Frame-part construction for one sprite clip (lines 66–145 of
`AnimationLoader::load`). The caller has already filtered out clips with
`sprite_number == -1`. Returns `none` where the source would panic (texture
or attach-point index out of range). -/
def framePartFromClip (animation_pairs : List AnimationPair) (entity_type : EntityType)
    (animation_index : ℕ) (pair : AnimationPair) (action_index motion_index : ℕ)
    (motion : Motion) (sprite_clip : SpriteClip) : Option Frame :=
  let sprite_number := intAsUsize sprite_clip.sprite_number
  match pair.sprites.textures.get? sprite_number with
  | none => none
  | some texture =>
  let color := match sprite_clip.color with
    | some c =>
        { red := (((c >>> 0) &&& 255 : ℕ) : ℚ) / 255
          green := (((c >>> 8) &&& 255 : ℕ) : ℚ) / 255
          blue := (((c >>> 16) &&& 255 : ℕ) : ℚ) / 255
          alpha := (((c >>> 24) &&& 255 : ℕ) : ℚ) / 255 }
    | none => Color.default
  let zoom : Vector2 ℚ := match sprite_clip.zoom with
    | some value => ⟨value, value⟩
    | none => sprite_clip.zoom2.getD ⟨1, 1⟩
  let width := if zoom ≠ (⟨1, 1⟩ : Vector2 ℚ) then floorAsU32 ((texture.width : ℚ) * zoom.x) else texture.width
  let height := if zoom ≠ (⟨1, 1⟩ : Vector2 ℚ) then floorAsU32 ((texture.height : ℚ) * zoom.y) else texture.height
  let angle : ℚ := match sprite_clip.angle with
    | some value => (value : ℚ) / 360 * 2
    | none => 0
  let mirror := sprite_clip.mirror_on != 0
  match resolveClipOffset animation_pairs entity_type animation_index action_index
      motion_index motion sprite_clip with
  | none => none
  | some offset =>
  let size : Vector2 ℤ := ⟨u32AsI32 width, u32AsI32 height⟩
  let frame_part : FramePart :=
    { FramePart.default with
      animation_index := animation_index
      sprite_number := sprite_number
      size := size
      offset := offset
      mirror := mirror
      angle := angle
      color := color }
  some
    { size := size
      top_left := ⟨0, 0⟩
      offset := offset
      remove_offset := ⟨0, 0⟩
      frameparts := [frame_part] }

/-- The per-pair, per-action, per-motion frame construction of
`AnimationLoader::load` (lines 56–157): motions with `sprite_clip_count == 0`
contribute nothing, clips with `sprite_number == -1` are skipped, a single
surviving clip frame is taken as is, and several are merged. -/
def buildPairFrames (animation_pairs : List AnimationPair) (entity_type : EntityType)
    (animation_index : ℕ) (pair : AnimationPair) : Option (List (List Frame)) :=
  pair.actions.actions.enum.mapM fun action_entry =>
    (action_entry.2.motions.enum.filterMapM fun motion_entry =>
      if motion_entry.2.sprite_clip_count = 0 then
        pure none
      else do
        let motion_frames ←
          (motion_entry.2.sprite_clips.filter fun c => c.sprite_number ≠ -1).mapM
            (framePartFromClip animation_pairs entity_type animation_index pair
              action_entry.1 motion_entry.1 motion_entry.2)
        match motion_frames with
        | [f] => pure (some f)
        | fs => pure (some (Frame.merge_frame fs)))

/-- The cross-pair merge and per-action normalization of
`AnimationLoader::load` (lines 158–239): for every action index of pair 0 and
every motion index of that action, the frames contributed by each pair (when
present) are merged, and the resulting list of action frames is normalized. -/
def buildAnimations (animations_list : List (List (List Frame))) (pair0 : AnimationPair) :
    List Animation :=
  pair0.actions.actions.enum.map fun action_entry =>
    let motion_size := action_entry.2.motions.length
    let frames := (List.range motion_size).map fun motion_index =>
      let generate := animations_list.filterMap fun pair_frames =>
        (pair_frames.get? action_entry.1).bind fun action_frames =>
          action_frames.get? motion_index
      Frame.merge_frame generate
    { frames := normalizeFrames frames }

/-- The whole frame-table construction of `AnimationLoader::load`
(lines 44–245), from the already loaded animation pairs to the
`AnimationData` value; `none` models a panic. -/
def buildAnimationData (animation_pairs : List AnimationPair) (entity_type : EntityType) :
    Option AnimationData :=
  match animation_pairs.enum.mapM (fun pair_entry =>
      buildPairFrames animation_pairs entity_type pair_entry.1 pair_entry.2) with
  | none => none
  | some animations_list =>
    match animation_pairs.get? 0 with
    | none => none
    | some pair0 =>
      some
        { animation_pair := animation_pairs
          animations := buildAnimations animations_list pair0
          delays := pair0.actions.delays
          entity_type := entity_type }

/-- Modelled from the spec: the error type of the excluded sprite/action
parser layer (`loaders/error.rs` is not under `src/`); the spec names the
`AssetNotFound` and `MalformedAsset` cases, and the sprite loader also wraps
file errors. -/
inductive LoadError where
  | AssetNotFound
  | MalformedAsset
  | File
deriving DecidableEq, Repr

/-- The observable outcome of a call to `AnimationLoader::load` or
`AnimationLoader::get`: a success carrying the returned data and the cache
after the call, an error return, or a panic (which unwinds, leaving the
cache as it was). -/
inductive LoadResult where
  | ok (data : AnimationData) (cache : List (ℕ × AnimationData))
  | err (e : LoadError) (cache : List (ℕ × AnimationData))
  | panicked (cache : List (ℕ × AnimationData))
deriving DecidableEq, Repr

/-- The animation-pair construction of `AnimationLoader::load`
(lines 36–42): for each file path, the sprite and action loaders are called
and their results are `unwrap`ped — a loader error is a panic, modelled as
`none`, and never a returned error. -/
def buildPairs (spriteGet : String → Except LoadError Sprite)
    (actionGet : String → Except LoadError Actions) : List String → Option (List AnimationPair)
  | [] => some []
  | file_path :: rest =>
    match spriteGet (file_path ++ ".spr") with
    | Except.error _ => none
    | Except.ok sprites =>
      match actionGet (file_path ++ ".act") with
      | Except.error _ => none
      | Except.ok actions => (buildPairs spriteGet actionGet rest).map (⟨sprites, actions⟩ :: ·)

/-- The cache key computation shared by `AnimationLoader::load` (lines
246–251) and `AnimationLoader::get` (lines 265–270); `none` models the panic
of an out-of-range `entity_hash` access. -/
def cacheHash (entity_type : EntityType) (entity_hash : List ℕ) : Option ℕ :=
  match entity_type with
  | EntityType.Player => do
      pure (30000 + (← entity_hash.get? 0) * 2 + (← entity_hash.get? 1))
  | _ => entity_hash.get? 0

/-- Lookup in the cache map, modelled as an association list (insertion
shadows the previous entry, as `HashMap::insert` replaces it). -/
def cacheLookup (cache : List (ℕ × AnimationData)) (hash : ℕ) : Option AnimationData :=
  (cache.find? fun entry => entry.1 == hash).map fun entry => entry.2

/-- `AnimationLoader::load`: builds the animation pairs (panicking on any
loader error), builds the animation data, computes the cache key, inserts
the data, and returns it. -/
def animationLoaderLoad (spriteGet : String → Except LoadError Sprite)
    (actionGet : String → Except LoadError Actions) (cache : List (ℕ × AnimationData))
    (entity_filename : List String) (entity_hash : List ℕ) (entity_type : EntityType) :
    LoadResult :=
  match buildPairs spriteGet actionGet entity_filename with
  | none => LoadResult.panicked cache
  | some animation_pairs =>
    match buildAnimationData animation_pairs entity_type with
    | none => LoadResult.panicked cache
    | some animation_data =>
      match cacheHash entity_type entity_hash with
      | none => LoadResult.panicked cache
      | some hash => LoadResult.ok animation_data ((hash, animation_data) :: cache)

/-- `AnimationLoader::get`: computes the cache key, returns the cached data
on a hit, and otherwise delegates to `load`. -/
def animationLoaderGet (spriteGet : String → Except LoadError Sprite)
    (actionGet : String → Except LoadError Actions) (cache : List (ℕ × AnimationData))
    (entity_filename : List String) (entity_hash : List ℕ) (entity_type : EntityType) :
    LoadResult :=
  match cacheHash entity_type entity_hash with
  | none => LoadResult.panicked cache
  | some hash =>
    match cacheLookup cache hash with
    | some animation_data => LoadResult.ok animation_data cache
    | none => animationLoaderLoad spriteGet actionGet cache entity_filename entity_hash entity_type

/-- The animation state consumed by the render selector; only the fields
read by `AnimationData::render` are modelled (`action`, elapsed `time`,
optional explicit `duration`, optional speed `factor`). -/
structure AnimationState where
  action : ℕ
  time : ℕ
  duration : Option ℕ
  factor : Option ℚ
deriving DecidableEq, Repr

/-- The lookup-and-override stage of `AnimationData::render` (lines
427–430 and 444–450 of `loaders/animation/mod.rs`; the copy in
`world/animation/mod.rs` lines 88–91 and 105–111 is textually identical):
direction and animation index computation, modulo-wrapped delay and
animation lookups, frame lookup at the already computed elapsed frame
count `frame_time`, and the player idle ("doridori") override. The
frame-time stage that produces `frame_time` (lines 432–440) is modelled
separately by `frameTime`, and `selectFrameTimed` below is the full
selector with that stage computed in place. `none` models a panic (`%` by
zero or index out of range). -/
def selectFrame (data : AnimationData) (animation_state : AnimationState)
    (camera_direction head_direction : ℕ) (frame_time : ℕ) : Option Frame :=
  let direction := (camera_direction + head_direction) % 8
  let aa := animation_state.action * 8 + direction
  match data.delays.get? (aa % data.delays.length) with
  | none => none
  | some _delay =>
    match data.animations.get? (aa % data.animations.length) with
    | none => none
    | some animation =>
      let time := frame_time % animation.frames.length
      match animation.frames.get? time with
      | none => none
      | some frame =>
        if data.entity_type = EntityType.Player ∧ animation_state.action = 0 then
          animation.frames.get? 0
        else
          some frame

/-- The frame-time computation of `AnimationData::render` (lines 432–440 of
`loaders/animation/mod.rs`; `world/animation/mod.rs` lines 93–101): with an
explicit duration, `animation_state.time * animation.frames.len() as u32 /
duration` in `u32` arithmetic — the truncating `as u32` cast and the
wrapping multiplication are the `% 2^32` reductions, and the division
panics (`none`) when the duration is zero. Without a duration, the
floating-point `(time as f32 / factor) as u32` value is abstracted by the
`float_frame_time` oracle argument; that path cannot panic (the `f32`
division and the saturating cast always yield a value), so it is always
`some`. -/
def frameTime (animation_state : AnimationState) (frame_count : ℕ)
    (float_frame_time : ℕ) : Option ℕ :=
  match animation_state.duration with
  | some duration =>
    if duration = 0 then none
    else some (((animation_state.time % 2 ^ 32) * (frame_count % 2 ^ 32) % 2 ^ 32) / duration)
  | none => some float_frame_time

/-- The full frame selection of `AnimationData::render` (lines 427–450;
`world/animation/mod.rs` lines 88–111): as `selectFrame`, but with the
frame-time stage of lines 432–440 computed in place by `frameTime` in its
source position — after the delay and animation lookups and before the
frame lookup — so the `u32` division-by-zero panic at `duration == Some(0)`
(reached before the player idle override) is modelled as `none`. -/
def selectFrameTimed (data : AnimationData) (animation_state : AnimationState)
    (camera_direction head_direction : ℕ) (float_frame_time : ℕ) : Option Frame :=
  let direction := (camera_direction + head_direction) % 8
  let aa := animation_state.action * 8 + direction
  match data.delays.get? (aa % data.delays.length) with
  | none => none
  | some _delay =>
    match data.animations.get? (aa % data.animations.length) with
    | none => none
    | some animation =>
      match frameTime animation_state animation.frames.length float_frame_time with
      | none => none
      | some frame_time =>
        let time := frame_time % animation.frames.length
        match animation.frames.get? time with
        | none => none
        | some frame =>
          if data.entity_type = EntityType.Player ∧ animation_state.action = 0 then
            animation.frames.get? 0
          else
            some frame

/-- A sprite clip with all optional inputs absent, at the given image index
and position; the base case of the concrete examples below. -/
def plainClip (sprite_number : ℤ) (position : Vector2 ℤ) : SpriteClip where
  sprite_number := sprite_number
  position := position
  color := none
  zoom := none
  zoom2 := none
  angle := none
  mirror_on := 0
  sprite_type := none

/-- Scenario of §8 of the spec, motion 1: a single 100×50 clip at (0,0). -/
def scenarioMotion1 : Motion where
  sprite_clip_count := 1
  sprite_clips := [plainClip 0 ⟨0, 0⟩]
  attach_point_count := none
  attach_points := []

/-- Scenario of §8 of the spec, motion 2: two 50×50 clips at (−10,0) and
(10,0). -/
def scenarioMotion2 : Motion where
  sprite_clip_count := 2
  sprite_clips := [plainClip 1 ⟨-10, 0⟩, plainClip 1 ⟨10, 0⟩]
  attach_point_count := none
  attach_points := []

/-- Scenario pair: texture 0 is 100×50 pixels, texture 1 is 50×50 pixels,
one action holding the two scenario motions. -/
def scenarioPair : AnimationPair where
  sprites := { palette_size := 0, textures := [⟨100, 50⟩, ⟨50, 50⟩] }
  actions := { actions := [⟨[scenarioMotion1, scenarioMotion2]⟩], delays := [4] }

/-- The animation data the loader produces from the scenario pair. -/
def scenarioData : AnimationData :=
  (buildAnimationData [scenarioPair] EntityType.Monster).getD ⟨[], [], [], EntityType.Monster⟩

/-- The same composition tagged as a player, used to exercise the render
selector's player-specific branch. -/
def scenarioPlayerData : AnimationData :=
  { scenarioData with entity_type := EntityType.Player }

/-- A sprite with two palette images and one direct-color image, for the
sprite-type discriminator example. -/
def discriminatorSprite : Sprite where
  palette_size := 2
  textures := [⟨10, 10⟩, ⟨20, 20⟩, ⟨30, 30⟩]

/-- A clip carrying the direct-color sprite-type discriminator and image
index 0. -/
def discriminatorClip : SpriteClip :=
  { plainClip 0 ⟨0, 0⟩ with sprite_type := some 1 }

/-- The motion holding the discriminator clip. -/
def discriminatorMotion : Motion where
  sprite_clip_count := 1
  sprite_clips := [discriminatorClip]
  attach_point_count := none
  attach_points := []

/-- The pair holding the discriminator sprite. -/
def discriminatorPair : AnimationPair where
  sprites := discriminatorSprite
  actions := { actions := [⟨[discriminatorMotion]⟩], delays := [4] }

/-- A body motion with one attach point at (10, 20). -/
def bodyMotion : Motion where
  sprite_clip_count := 1
  sprite_clips := [plainClip 0 ⟨0, 0⟩]
  attach_point_count := some 1
  attach_points := [⟨⟨10, 20⟩⟩]

/-- A head motion with one attach point at (3, 4) and a clip at (7, 8). -/
def headMotion : Motion where
  sprite_clip_count := 1
  sprite_clips := [plainClip 0 ⟨7, 8⟩]
  attach_point_count := some 1
  attach_points := [⟨⟨3, 4⟩⟩]

/-- The body pair (pair index 0) of the attach-point example. -/
def bodyPair : AnimationPair where
  sprites := { palette_size := 0, textures := [⟨16, 16⟩] }
  actions := { actions := [⟨[bodyMotion]⟩], delays := [4] }

/-- The head pair (pair index 1) of the attach-point example. -/
def headPair : AnimationPair where
  sprites := { palette_size := 0, textures := [⟨8, 8⟩] }
  actions := { actions := [⟨[headMotion]⟩], delays := [4] }

/-- The frame the head clip of the attach-point example produces. -/
def headClipFrame : Frame :=
  (framePartFromClip [bodyPair, headPair] EntityType.Player 1 headPair 0 0 headMotion
      (plainClip 0 ⟨7, 8⟩)).getD Frame.emptyMergeFrame

/-- The frame the discriminator clip produces. -/
def discriminatorClipFrame : Frame :=
  (framePartFromClip [discriminatorPair] EntityType.Monster 0 discriminatorPair 0 0
      discriminatorMotion discriminatorClip).getD Frame.emptyMergeFrame

/-- A sprite loader stub that always fails with `AssetNotFound`. -/
def failingSpriteGet : String → Except LoadError Sprite :=
  fun _ => Except.error LoadError.AssetNotFound

/-- An action loader stub that always succeeds with an empty action table. -/
def okActionGet : String → Except LoadError Actions :=
  fun _ => Except.ok { actions := [], delays := [] }

/-- A concrete 50×50 frame at offset (−10, 0) with one part. -/
def permFrameA : Frame where
  offset := ⟨-10, 0⟩
  top_left := ⟨0, 0⟩
  size := ⟨50, 50⟩
  remove_offset := ⟨0, 0⟩
  frameparts := [{ FramePart.default with
    animation_index := 0
    sprite_number := 1
    size := ⟨50, 50⟩
    offset := ⟨-10, 0⟩ }]

/-- A concrete 20×30 frame at offset (5, 7) with one part. -/
def permFrameB : Frame where
  offset := ⟨5, 7⟩
  top_left := ⟨0, 0⟩
  size := ⟨20, 30⟩
  remove_offset := ⟨0, 0⟩
  frameparts := [{ FramePart.default with
    animation_index := 0
    sprite_number := 2
    size := ⟨20, 30⟩
    offset := ⟨5, 7⟩ }]

@[simp]
theorem Vector2.add_def (a b : Vector2 ℤ) : a + b = ⟨a.x + b.x, a.y + b.y⟩ := rfl

@[simp]
theorem Vector2.sub_def (a b : Vector2 ℤ) : a - b = ⟨a.x - b.x, a.y - b.y⟩ := rfl

@[simp]
theorem Vector2.neg_def (a : Vector2 ℤ) : -a = ⟨-a.x, -a.y⟩ := rfl

theorem vec_add_neg_add (p a b : Vector2 ℤ) : p + (-a + b) = p + (b - a) := by
  cases p
  cases a
  cases b
  simp only [Vector2.neg_def, Vector2.add_def, Vector2.sub_def, Vector2.mk.injEq]
  omega

theorem int_min?_perm {l l' : List ℤ} (h : l.Perm l') : l.min? = l'.min? := by
  haveI : Std.Antisymm ((· : ℤ) ≤ ·) := ⟨fun h1 h2 => le_antisymm h1 h2⟩
  cases hm : l.min? with
  | none =>
    rw [List.min?_eq_none_iff] at hm
    subst hm
    rw [← h.nil_eq]
    rfl
  | some a =>
    rw [List.min?_eq_some_iff (fun x => le_refl x) (fun x y => min_choice x y)
      (fun x y z => le_min_iff)] at hm
    symm
    rw [List.min?_eq_some_iff (fun x => le_refl x) (fun x y => min_choice x y)
      (fun x y z => le_min_iff)]
    exact ⟨h.mem_iff.mp hm.1, fun b hb => hm.2 b (h.mem_iff.mpr hb)⟩

theorem int_max?_perm {l l' : List ℤ} (h : l.Perm l') : l.max? = l'.max? := by
  haveI : Std.Antisymm ((· : ℤ) ≤ ·) := ⟨fun h1 h2 => le_antisymm h1 h2⟩
  cases hm : l.max? with
  | none =>
    rw [List.max?_eq_none_iff] at hm
    subst hm
    rw [← h.nil_eq]
    rfl
  | some a =>
    rw [List.max?_eq_some_iff (fun x => le_refl x) (fun x y => max_choice x y)
      (fun x y z => max_le_iff)] at hm
    symm
    rw [List.max?_eq_some_iff (fun x => le_refl x) (fun x y => max_choice x y)
      (fun x y z => max_le_iff)]
    exact ⟨h.mem_iff.mp hm.1, fun b hb => hm.2 b (h.mem_iff.mpr hb)⟩

theorem mergeInputs_frameparts (l : List Frame) :
    (mergeInputs l).map (fun f => f.frameparts) = l.map fun f => f.frameparts := by
  rw [mergeInputs, List.map_map]
  rfl

theorem mergeInputs_isEmpty_eq_false {l : List Frame} (h : l ≠ []) :
    (mergeInputs l).isEmpty = false := by
  rw [mergeInputs]
  cases l with
  | nil => exact absurd rfl h
  | cons a t => rfl

/-- C4: for every non-empty list of input frames and every permutation of
it, `Frame::merge_frame` produces the same `size` and the same `offset`;
the merged frame's part list is the concatenation of the input frames'
part lists in input order. -/
theorem merge_union_order_independent (l l' : List Frame) (hne : l ≠ []) (hp : l.Perm l') :
    (Frame.merge_frame l).size = (Frame.merge_frame l').size ∧
    (Frame.merge_frame l).offset = (Frame.merge_frame l').offset ∧
    (Frame.merge_frame l).frameparts = (l.map fun f => f.frameparts).flatten := by
  have hne' : l' ≠ [] := fun h0 => hne ((h0 ▸ hp).eq_nil)
  have hfs : (mergeInputs l).Perm (mergeInputs l') := hp.map _
  have h1 : ((mergeInputs l).map fun f => f.top_left.x).min? =
      ((mergeInputs l').map fun f => f.top_left.x).min? := int_min?_perm (hfs.map _)
  have h2 : ((mergeInputs l).map fun f => f.top_left.y).min? =
      ((mergeInputs l').map fun f => f.top_left.y).min? := int_min?_perm (hfs.map _)
  have h3 : ((mergeInputs l).map fun f => f.top_left.x + f.size.x).max? =
      ((mergeInputs l').map fun f => f.top_left.x + f.size.x).max? := int_max?_perm (hfs.map _)
  have h4 : ((mergeInputs l).map fun f => f.top_left.y + f.size.y).max? =
      ((mergeInputs l').map fun f => f.top_left.y + f.size.y).max? := int_max?_perm (hfs.map _)
  rw [Frame.merge_frame, Frame.merge_frame, mergeInputs_isEmpty_eq_false hne,
    mergeInputs_isEmpty_eq_false hne']
  simp only [Bool.false_eq_true, if_false]
  refine ⟨?_, ?_, ?_⟩
  · simp only [h1, h2, h3, h4]
  · simp only [h1, h2, h3, h4]
  · rw [mergeInputs_frameparts]

/-- Witness for C4 at the concrete two-frame input and its swap. -/
theorem merge_union_order_independent_witness :
    (Frame.merge_frame [permFrameA, permFrameB]).size =
        (Frame.merge_frame [permFrameB, permFrameA]).size ∧
    (Frame.merge_frame [permFrameA, permFrameB]).offset =
        (Frame.merge_frame [permFrameB, permFrameA]).offset ∧
    (Frame.merge_frame [permFrameA, permFrameB]).frameparts =
        ([permFrameA, permFrameB].map fun f => f.frameparts).flatten :=
  merge_union_order_independent [permFrameA, permFrameB] [permFrameB, permFrameA]
    (List.cons_ne_nil _ _) (List.Perm.swap permFrameB permFrameA [])

/-- C3 counterexample: the sentinel frame part returned by a merge of empty
input has size (1, 1), not the zero geometry the claim states. -/
theorem merge_empty_sentinel_counterexample :
    (Frame.merge_frame []).frameparts.map (fun p => p.size) = [⟨1, 1⟩] ∧
    ((⟨1, 1⟩ : Vector2 ℤ) ≠ ⟨0, 0⟩) := by decide

/-- C3 (amended): a merge of an empty frame list returns a frame of size
(1, 1) at offset (0, 0) containing exactly one sentinel frame part whose
pair and sprite indices are `usize::MAX`, whose size is (1, 1), whose
offset is zero and whose color is fully transparent. -/
theorem merge_empty_placeholder :
    Frame.merge_frame [] =
      { offset := ⟨0, 0⟩
        top_left := ⟨0, 0⟩
        size := ⟨1, 1⟩
        remove_offset := ⟨0, 0⟩
        frameparts := [{
          animation_index := USIZE_MAX
          sprite_number := USIZE_MAX
          offset := ⟨0, 0⟩
          size := ⟨1, 1⟩
          mirror := false
          angle := 0
          color := { red := 0, green := 0, blue := 0, alpha := 0 }
          texture_top_left := ⟨0, 0⟩
          texture_bottom_left := ⟨0, 0⟩
          texture_top_right := ⟨0, 0⟩
          texture_bottom_right := ⟨0, 0⟩ }] } := by
  decide

/-- C9 counterexample: a Monster and an Npc composition with the same hash
entry map to the same cache key although their entity kinds differ. -/
theorem cache_key_counterexample :
    cacheHash EntityType.Monster [5] = cacheHash EntityType.Npc [5] ∧
    EntityType.Monster ≠ EntityType.Npc := by decide

/-- C9 (amended): the cache key is a deterministic function of the entity
kind's match arm and the listed hash entries, and within one fixed
non-player entity kind it is injective in the first hash entry; it does not
separate entity kinds, so compositions of different kinds can share a key. -/
theorem cache_key_injective_within_kind (et : EntityType) (a b : ℕ)
    (hne : et ≠ EntityType.Player) (h : cacheHash et [a] = cacheHash et [b]) : a = b := by
  cases et with
  | Player => exact absurd rfl hne
  | Monster => simpa [cacheHash] using h
  | Npc => simpa [cacheHash] using h
  | Warp => simpa [cacheHash] using h

/-- Witness for the amended C9 theorem at a concrete entity kind and hash. -/
theorem cache_key_injective_within_kind_witness : (3 : ℕ) = 3 :=
  cache_key_injective_within_kind EntityType.Monster 3 3 (by decide) rfl

/-- C10 counterexample: in the spec's scenario (one pair; motion 1 one
100×50 clip at (0,0); motion 2 two 50×50 clips at (−10,0) and (10,0)),
merging motion 2 yields a frame of size (70, 50) — the union of the two
50×50 rectangles whose corner span is 70 pixels — and not the claimed
(100, 50). -/
theorem scenario_sizes_counterexample :
    (buildPairFrames [scenarioPair] EntityType.Monster 0 scenarioPair).map
        (fun frame_table => frame_table.map fun action_frames =>
          action_frames.map fun f => f.size) =
      some [[⟨100, 50⟩, ⟨70, 50⟩]] ∧
    ((⟨70, 50⟩ : Vector2 ℤ) ≠ ⟨100, 50⟩) := by decide

/-- C10 (amended): in the scenario, motion 1 builds a 100×50 frame at
offset (0,0) and motion 2 merges to a 70×50 frame at offset (0,0);
normalizing the action over both motions yields the uniform inflated size
(102, 52) — the maximum size 100×50 plus the fixed margin — and
`remove_offset` (2, 2) for every frame. -/
theorem scenario_sizes_amended :
    (buildPairFrames [scenarioPair] EntityType.Monster 0 scenarioPair).map
        (fun frame_table => frame_table.map fun action_frames =>
          action_frames.map fun f => (f.size, f.offset)) =
      some [[(⟨100, 50⟩, ⟨0, 0⟩), (⟨70, 50⟩, ⟨0, 0⟩)]] ∧
    (buildAnimationData [scenarioPair] EntityType.Monster).map
        (fun d => d.animations.map fun a => a.frames.map fun f =>
          (f.size, f.remove_offset)) =
      some [[(⟨102, 52⟩, ⟨2, 2⟩), (⟨102, 52⟩, ⟨2, 2⟩)]] := by decide

theorem mem_normalizeFrames {f : Frame} {frames : List Frame}
    (h : f ∈ normalizeFrames frames) :
    f.size = normSize frames ∧ f.remove_offset = normRemoveOffset frames := by
  simp only [normalizeFrames, List.mem_map] at h
  obtain ⟨g, _, rfl⟩ := h
  exact ⟨rfl, rfl⟩

/-- C1: the normalizer gives every frame of one action the inflated maximum
size and the `(max_offset - min_offset) + 2` remove-offset, so within every
action of any animation data the loader builds, `size` and `remove_offset`
are pairwise equal across frames. -/
theorem normalizer_uniformity (frames : List Frame) (animation_pairs : List AnimationPair)
    (entity_type : EntityType) (data : AnimationData)
    (hload : buildAnimationData animation_pairs entity_type = some data) :
    (∀ f ∈ normalizeFrames frames,
      f.size = normSize frames ∧ f.remove_offset = normRemoveOffset frames) ∧
    (∀ a ∈ data.animations, ∀ f1 ∈ a.frames, ∀ f2 ∈ a.frames,
      f1.size = f2.size ∧ f1.remove_offset = f2.remove_offset) := by
  refine ⟨fun f hf => mem_normalizeFrames hf, ?_⟩
  intro a ha f1 hf1 f2 hf2
  rw [buildAnimationData] at hload
  split at hload
  · exact Option.noConfusion hload
  · split at hload
    · exact Option.noConfusion hload
    · injection hload with hdata
      subst hdata
      simp only [buildAnimations, List.mem_map] at ha
      obtain ⟨entry, _, rfl⟩ := ha
      simp only at hf1 hf2
      obtain ⟨h1s, h1r⟩ := mem_normalizeFrames hf1
      obtain ⟨h2s, h2r⟩ := mem_normalizeFrames hf2
      exact ⟨h1s.trans h2s.symm, h1r.trans h2r.symm⟩

/-- Witness for C1 at the concrete scenario data. -/
theorem normalizer_uniformity_witness :
    (∀ f ∈ normalizeFrames [permFrameA, permFrameB],
      f.size = normSize [permFrameA, permFrameB] ∧
      f.remove_offset = normRemoveOffset [permFrameA, permFrameB]) ∧
    (∀ a ∈ scenarioData.animations, ∀ f1 ∈ a.frames, ∀ f2 ∈ a.frames,
      f1.size = f2.size ∧ f1.remove_offset = f2.remove_offset) :=
  normalizer_uniformity [permFrameA, permFrameB] [scenarioPair] EntityType.Monster
    scenarioData rfl

theorem attach_condition_bool (entity_type : EntityType) (animation_index : ℕ) (motion : Motion) :
    ((entity_type == EntityType.Player &&
        (match motion.attach_point_count with
          | some value => value == 1
          | none => false) &&
        animation_index == 1) = true) ↔
      (entity_type = EntityType.Player ∧ motion.attach_point_count = some 1 ∧
        animation_index = 1) := by
  cases h : motion.attach_point_count with
  | none => simp [h]
  | some value => simp [h, Bool.and_eq_true, beq_iff_eq, and_assoc]

theorem resolveClipOffset_no_attach {animation_pairs : List AnimationPair}
    {entity_type : EntityType} {animation_index action_index motion_index : ℕ}
    {motion : Motion} {sprite_clip : SpriteClip}
    (h : ¬(entity_type = EntityType.Player ∧ motion.attach_point_count = some 1 ∧
      animation_index = 1)) :
    resolveClipOffset animation_pairs entity_type animation_index action_index motion_index
      motion sprite_clip = some sprite_clip.position := by
  rw [resolveClipOffset, if_neg]
  rw [attach_condition_bool]
  exact h

theorem resolveClipOffset_attach {animation_pairs : List AnimationPair}
    {entity_type : EntityType} {animation_index action_index motion_index : ℕ}
    {motion : Motion} {sprite_clip : SpriteClip} {offset : Vector2 ℤ}
    (hc : entity_type = EntityType.Player ∧ motion.attach_point_count = some 1 ∧
      animation_index = 1)
    (h : resolveClipOffset animation_pairs entity_type animation_index action_index motion_index
      motion sprite_clip = some offset) :
    ∃ A_p A_c, parentAttachPosition animation_pairs action_index motion_index = some A_p ∧
      (motion.attach_points.get? 0).map (fun a => a.position) = some A_c ∧
      offset = sprite_clip.position + (A_p - A_c) := by
  rw [resolveClipOffset, if_pos ((attach_condition_bool _ _ _).mpr hc)] at h
  split at h
  · exact Option.noConfusion h
  · rename_i A_p hAp
    split at h
    · exact Option.noConfusion h
    · rename_i A_c hAc
      injection h with h
      exact ⟨A_p, A_c, hAp, hAc, h ▸ vec_add_neg_add sprite_clip.position A_c A_p⟩

theorem framePartFromClip_parts {animation_pairs : List AnimationPair}
    {entity_type : EntityType} {animation_index : ℕ} {pair : AnimationPair}
    {action_index motion_index : ℕ} {motion : Motion} {sprite_clip : SpriteClip} {f : Frame}
    (h : framePartFromClip animation_pairs entity_type animation_index pair action_index
      motion_index motion sprite_clip = some f) :
    ∃ offset, resolveClipOffset animation_pairs entity_type animation_index action_index
        motion_index motion sprite_clip = some offset ∧
      ∃ p, f.frameparts = [p] ∧ p.offset = offset ∧
        p.sprite_number = intAsUsize sprite_clip.sprite_number := by
  rw [framePartFromClip] at h
  split at h
  · exact Option.noConfusion h
  · dsimp only at h
    split at h
    · exact Option.noConfusion h
    · rename_i offset hoff
      injection h with h
      subst h
      exact ⟨offset, hoff, _, rfl, rfl, rfl⟩

/-- C5: on every successfully constructed frame part, the resulting offset
is the raw clip position adjusted by `parent_attach_point − this_attach_point`
exactly when the entity kind is player, the clip's motion declares exactly
one attach point, and the clip belongs to the pair at index 1; in every
other case it is the raw clip position. -/
theorem attach_point_alignment (animation_pairs : List AnimationPair)
    (entity_type : EntityType) (animation_index : ℕ) (pair : AnimationPair)
    (action_index motion_index : ℕ) (motion : Motion) (sprite_clip : SpriteClip) (f : Frame)
    (h : framePartFromClip animation_pairs entity_type animation_index pair action_index
      motion_index motion sprite_clip = some f) :
    ∃ p, f.frameparts = [p] ∧
      (((entity_type = EntityType.Player ∧ motion.attach_point_count = some 1 ∧
          animation_index = 1) →
        ∃ A_p A_c, parentAttachPosition animation_pairs action_index motion_index = some A_p ∧
          (motion.attach_points.get? 0).map (fun a => a.position) = some A_c ∧
          p.offset = sprite_clip.position + (A_p - A_c)) ∧
       (¬(entity_type = EntityType.Player ∧ motion.attach_point_count = some 1 ∧
          animation_index = 1) →
        p.offset = sprite_clip.position)) := by
  obtain ⟨offset, hoff, p, hfp, hpo, _⟩ := framePartFromClip_parts h
  refine ⟨p, hfp, fun hc => ?_, fun hnc => ?_⟩
  · obtain ⟨A_p, A_c, hAp, hAc, heq⟩ := resolveClipOffset_attach hc hoff
    exact ⟨A_p, A_c, hAp, hAc, hpo.trans heq⟩
  · have := (resolveClipOffset_no_attach hnc).symm.trans hoff
    injection this with this
    exact hpo.trans this.symm

/-- Witness for C5 at the concrete body/head player composition. -/
theorem attach_point_alignment_witness :
    ∃ p, headClipFrame.frameparts = [p] ∧
      (((EntityType.Player = EntityType.Player ∧ headMotion.attach_point_count = some 1 ∧
          (1 : ℕ) = 1) →
        ∃ A_p A_c, parentAttachPosition [bodyPair, headPair] 0 0 = some A_p ∧
          (headMotion.attach_points.get? 0).map (fun a => a.position) = some A_c ∧
          p.offset = (plainClip 0 ⟨7, 8⟩).position + (A_p - A_c)) ∧
       (¬(EntityType.Player = EntityType.Player ∧ headMotion.attach_point_count = some 1 ∧
          (1 : ℕ) = 1) →
        p.offset = (plainClip 0 ⟨7, 8⟩).position)) :=
  attach_point_alignment [bodyPair, headPair] EntityType.Player 1 headPair 0 0 headMotion
    (plainClip 0 ⟨7, 8⟩) headClipFrame rfl

/-- C8 counterexample: a clip carrying the direct-color sprite-type
discriminator, against a sprite with two palette images, resolves to sprite
image index 0 — the index as given — and not to 0 + 2 as the claim states. -/
theorem sprite_type_offset_counterexample :
    discriminatorClip.sprite_type = some 1 ∧
    discriminatorSprite.palette_size = 2 ∧
    discriminatorClipFrame.frameparts.map (fun p => p.sprite_number) = [0] ∧
    (0 : ℕ) ≠ 0 + 2 := by decide

/-- C8 (amended): the frame-part construction always uses the clip's
sprite-image index as given; the sprite-type discriminator is never
consulted and no palette-image-count offset is applied. -/
theorem sprite_number_used_as_given (animation_pairs : List AnimationPair)
    (entity_type : EntityType) (animation_index : ℕ) (pair : AnimationPair)
    (action_index motion_index : ℕ) (motion : Motion) (sprite_clip : SpriteClip) (f : Frame)
    (h : framePartFromClip animation_pairs entity_type animation_index pair action_index
      motion_index motion sprite_clip = some f) :
    f.frameparts.map (fun p => p.sprite_number) = [intAsUsize sprite_clip.sprite_number] := by
  obtain ⟨offset, _, p, hfp, _, hsn⟩ := framePartFromClip_parts h
  rw [hfp, List.map_cons, List.map_nil, hsn]

/-- Witness for the amended C8 theorem at the discriminator example. -/
theorem sprite_number_used_as_given_witness :
    discriminatorClipFrame.frameparts.map (fun p => p.sprite_number) =
      [intAsUsize discriminatorClip.sprite_number] :=
  sprite_number_used_as_given [discriminatorPair] EntityType.Monster 0 discriminatorPair 0 0
    discriminatorMotion discriminatorClip discriminatorClipFrame rfl

/-- C7 counterexample: with a sprite loader failing with `AssetNotFound`,
`load` panics on the `unwrap` — the outcome is a panic with the cache
unchanged, not a returned `AssetNotFound` error. -/
theorem load_error_counterexample :
    animationLoaderLoad failingSpriteGet okActionGet [] ["player"] [0] EntityType.Monster =
      LoadResult.panicked [] ∧
    animationLoaderLoad failingSpriteGet okActionGet [] ["player"] [0] EntityType.Monster ≠
      LoadResult.err LoadError.AssetNotFound [] := by decide

theorem buildPairs_fail (spriteGet : String → Except LoadError Sprite)
    (actionGet : String → Except LoadError Actions) :
    ∀ (entity_filename : List String) (file_path : String), file_path ∈ entity_filename →
      ((∃ e, spriteGet (file_path ++ ".spr") = Except.error e) ∨
       (∃ e, actionGet (file_path ++ ".act") = Except.error e)) →
      buildPairs spriteGet actionGet entity_filename = none := by
  intro entity_filename
  induction entity_filename with
  | nil => intro fp h; simp at h
  | cons head tail ih =>
    intro fp hmem hfail
    rcases List.mem_cons.mp hmem with rfl | htail
    · rcases hfail with ⟨e, he⟩ | ⟨e, he⟩
      · simp [buildPairs, he]
      · cases hs : spriteGet (fp ++ ".spr") with
        | error e2 => simp [buildPairs, hs]
        | ok sprites => simp [buildPairs, hs, he]
    · cases hs : spriteGet (head ++ ".spr") with
      | error e2 => simp [buildPairs, hs]
      | ok sprites =>
        cases ha : actionGet (head ++ ".act") with
        | error e2 => simp [buildPairs, hs, ha]
        | ok actions => simp [buildPairs, hs, ha, ih fp htail hfail]

/-- C7 (amended): whenever the sprite or action loader fails for any of the
requested file paths, `AnimationLoader::load` panics (the `unwrap` at lines
39–40) instead of returning the error, and the panic unwinds before the
cache insertion at line 253, so the cache is unchanged and no entry is
inserted for the key. -/
theorem load_error_panics (spriteGet : String → Except LoadError Sprite)
    (actionGet : String → Except LoadError Actions) (cache : List (ℕ × AnimationData))
    (entity_filename : List String) (entity_hash : List ℕ) (entity_type : EntityType)
    (file_path : String) (hmem : file_path ∈ entity_filename)
    (hfail : (∃ e, spriteGet (file_path ++ ".spr") = Except.error e) ∨
             (∃ e, actionGet (file_path ++ ".act") = Except.error e)) :
    animationLoaderLoad spriteGet actionGet cache entity_filename entity_hash entity_type =
      LoadResult.panicked cache := by
  rw [animationLoaderLoad, buildPairs_fail spriteGet actionGet entity_filename file_path
    hmem hfail]

/-- Witness for the amended C7 theorem at the concrete failing loader. -/
theorem load_error_panics_witness :
    animationLoaderLoad failingSpriteGet okActionGet [] ["player"] [0] EntityType.Monster =
      LoadResult.panicked [] :=
  load_error_panics failingSpriteGet okActionGet [] ["player"] [0] EntityType.Monster
    "player" (by simp) (Or.inl ⟨LoadError.AssetNotFound, rfl⟩)

theorem frameTime_isSome (animation_state : AnimationState) (frame_count float_frame_time : ℕ)
    (h : animation_state.duration ≠ some 0) :
    (frameTime animation_state frame_count float_frame_time).isSome := by
  rw [frameTime]
  split
  · rename_i duration hd
    rw [if_neg]
    · rfl
    · intro h0
      rw [h0] at hd
      exact h hd
  · rfl

/-- C2 counterexample: for a player composition with action 0, an animation
state with duration `Some(0)` makes the selector panic on the `u32` division
by zero (line 439) before the player idle override is reached, so nothing is
returned although frame 0 of the selected animation exists — refuting the
claim's "regardless of the duration". -/
theorem player_idle_duration_zero_counterexample :
    selectFrameTimed scenarioPlayerData ⟨0, 123, some 0, none⟩ 1 2 0 = none ∧
    ((scenarioPlayerData.animations.get? (((1 + 2) % 8) %
        scenarioPlayerData.animations.length)).bind fun a => a.frames.get? 0) ≠ none := by
  decide

/-- C2 (amended): when the entity kind is player, the action index is 0 and
the state's duration is not `Some(0)`, the frame selector returns frame 0 of
the selected animation, for every elapsed time, speed factor, and remaining
duration value (with `Some(0)` the `u32` division panics before the
override). -/
theorem player_idle_suppression (data : AnimationData) (animation_state : AnimationState)
    (camera_direction head_direction float_frame_time : ℕ)
    (hplayer : data.entity_type = EntityType.Player)
    (haction : animation_state.action = 0) (hdelays : data.delays ≠ [])
    (hduration : animation_state.duration ≠ some 0) :
    selectFrameTimed data animation_state camera_direction head_direction float_frame_time =
      (data.animations.get? (((camera_direction + head_direction) % 8) %
        data.animations.length)).bind fun a => a.frames.get? 0 := by
  have hdl : 0 < data.delays.length := List.length_pos.mpr hdelays
  rw [selectFrameTimed]
  simp only [haction, Nat.zero_mul, Nat.zero_add]
  split
  · rename_i hnone
    exact absurd (List.get?_eq_none.mp hnone) (Nat.not_le.mpr (Nat.mod_lt _ hdl))
  · split
    · rename_i hanim
      rw [hanim]
      rfl
    · rename_i animation hanim
      split
      · rename_i hft
        have hsome := frameTime_isSome animation_state animation.frames.length
          float_frame_time hduration
        rw [hft] at hsome
        exact Bool.noConfusion hsome
      · rename_i frame_time hft
        split
        · rename_i hfr
          have hlen0 : animation.frames.length = 0 := by
            by_contra hne0
            rw [List.get?_eq_get (Nat.mod_lt frame_time (Nat.pos_of_ne_zero hne0))] at hfr
            exact Option.noConfusion hfr
          rw [hanim]
          simp [List.length_eq_zero.mp hlen0]
        · rename_i frame hfr
          rw [if_pos ⟨hplayer, trivial⟩, hanim]
          rfl

/-- Witness for the amended C2 theorem at the concrete player scenario data,
exercising the integer frame-time path with duration `Some(5)`. -/
theorem player_idle_suppression_witness :
    selectFrameTimed scenarioPlayerData ⟨0, 123, some 5, none⟩ 1 2 7 =
      (scenarioPlayerData.animations.get? (((1 + 2) % 8) %
        scenarioPlayerData.animations.length)).bind fun a => a.frames.get? 0 :=
  player_idle_suppression scenarioPlayerData ⟨0, 123, some 5, none⟩ 1 2 7 rfl rfl
    (by decide) (by decide)

/-- C6: the render selector's delay, animation and frame lookups all use
indices reduced modulo the respective list lengths, so with non-empty lists
every index is in range and the selection never fails. -/
theorem render_lookup_wrapping (data : AnimationData) (animation_state : AnimationState)
    (camera_direction head_direction frame_time : ℕ)
    (hdelays : data.delays ≠ []) (hanims : data.animations ≠ [])
    (hframes : ∀ a ∈ data.animations, a.frames ≠ []) :
    ((animation_state.action * 8 + (camera_direction + head_direction) % 8) %
      data.delays.length < data.delays.length) ∧
    ((animation_state.action * 8 + (camera_direction + head_direction) % 8) %
      data.animations.length < data.animations.length) ∧
    (∀ a ∈ data.animations, frame_time % a.frames.length < a.frames.length) ∧
    (selectFrame data animation_state camera_direction head_direction frame_time).isSome := by
  have hdl : 0 < data.delays.length := List.length_pos.mpr hdelays
  have hal : 0 < data.animations.length := List.length_pos.mpr hanims
  refine ⟨Nat.mod_lt _ hdl, Nat.mod_lt _ hal,
    fun a ha => Nat.mod_lt _ (List.length_pos.mpr (hframes a ha)), ?_⟩
  rw [selectFrame]
  split
  · rename_i hnone
    exact absurd (List.get?_eq_none.mp hnone) (Nat.not_le.mpr (Nat.mod_lt _ hdl))
  · split
    · rename_i hnone
      exact absurd (List.get?_eq_none.mp hnone) (Nat.not_le.mpr (Nat.mod_lt _ hal))
    · rename_i animation hanim
      have hfl : 0 < animation.frames.length :=
        List.length_pos.mpr (hframes animation (List.get?_mem hanim))
      simp only [List.get?_eq_get (Nat.mod_lt frame_time hfl)]
      by_cases hc : data.entity_type = EntityType.Player ∧ animation_state.action = 0
      · simp only [if_pos hc, List.get?_eq_get hfl, Option.isSome_some]
      · simp only [if_neg hc, Option.isSome_some]

/-- Witness for C6 at the concrete player scenario data. -/
theorem render_lookup_wrapping_witness :
    (((9 : ℕ) * 8 + (1 + 2) % 8) % scenarioPlayerData.delays.length <
      scenarioPlayerData.delays.length) ∧
    (((9 : ℕ) * 8 + (1 + 2) % 8) % scenarioPlayerData.animations.length <
      scenarioPlayerData.animations.length) ∧
    (∀ a ∈ scenarioPlayerData.animations, (7 : ℕ) % a.frames.length < a.frames.length) ∧
    (selectFrame scenarioPlayerData ⟨9, 123, none, none⟩ 1 2 7).isSome :=
  render_lookup_wrapping scenarioPlayerData ⟨9, 123, none, none⟩ 1 2 7 (by decide) (by decide)
    (by decide)
